import Mathlib

/-!
Verification of the driver/system update orchestration modules.

The development shallowly embeds:
- the Windows driver updater (`checkDriverUpdates`, `updateDrivers`,
  `createRestorePoint`) from the driver-update module, including the
  semantics of the PowerShell install script it generates;
- the Windows system-update installer (`installWindowsUpdates`) from
  `electron/systemUpdater.js`;
- the multi-method detection chain, modelled from the specification
  (its implementation is not among the provided source files).

External effects (spawned PowerShell processes, the file system) are
abstracted as explicit environment inputs: an external invocation is a
value of an outcome type supplied to the embedded function, and the
embedded functions additionally record which effects they performed
(process spawned, script file written, script file unlinked).
-/

namespace DriverUpdater

/-- One available driver update as enumerated by the Windows Update search
(`UpdateID` from `$Update.Identity.UpdateID`, plus its title). -/
structure Driver where
  updateID : String
  title : String
deriving DecidableEq

/-- The JS `RESULT_CODES` table (lines 16-23 of the driver-update module):
a partial map from Windows Update result codes to labels. -/
def RESULT_CODES (c : Int) : Option String :=
  if c = 0 then some "Not Started"
  else if c = 1 then some "In Progress"
  else if c = 2 then some "Succeeded"
  else if c = 3 then some "Succeeded with Errors"
  else if c = 4 then some "Failed"
  else if c = 5 then some "Aborted"
  else none

/-- `RESULT_CODES[resultCode] || 'Unknown'` (line 297). -/
def resultTextOf (c : Int) : String := (RESULT_CODES c).getD "Unknown"

/-- The `switch` on `$InstallResult.ResultCode` inside the generated
PowerShell script (lines 208-216), default branch `"Unknown"`. -/
def psResultText (c : Int) : String :=
  if c = 0 then "Not Started"
  else if c = 1 then "In Progress"
  else if c = 2 then "Succeeded"
  else if c = 3 then "Succeeded with Errors"
  else if c = 4 then "Failed"
  else if c = 5 then "Aborted"
  else "Unknown"

/-- The structured JSON object the generated script prints on its normal
path (`$Result | ConvertTo-Json`, lines 206-222). -/
structure ScriptJson where
  resultCode : Int
  resultText : String
  rebootRequired : Bool
  updatedDrivers : List String
  updateCount : Nat
deriving DecidableEq

/-- Environment for one run of the generated install script: whether the
COM calls threw, the download result code, the install result code and the
platform-reported reboot flag. -/
structure ScriptEnv where
  comThrew : Bool
  downloadCode : Int
  installCode : Int
  installReboot : Bool
deriving DecidableEq

/-- Observable output of one run of the generated install script: the JSON
object printed on stdout (if any), the process exit code, and whether
stdout contains the line `Reboot Required: True`. -/
structure ScriptOut where
  json : Option ScriptJson
  exitCode : Int
  stdoutRebootTrue : Bool
deriving DecidableEq

/-- The filter loop of the generated script (lines 171-178): iterate the
available updates and keep exactly those whose `UpdateID` is in
`$TargetDriverIDs`. -/
def selectedUpdates (targetDriverIDs : List String) (available : List Driver) : List Driver :=
  available.filter (fun u => targetDriverIDs.contains u.updateID)

/-- Semantics of the generated PowerShell install script (lines 152-230):
if the COM calls throw, or no selected driver is found, or the download
result code is not 2, the script prints no JSON and exits 4; otherwise it
prints the result JSON and exits with the install result code. -/
def runInstallScript (targetDriverIDs : List String) (available : List Driver)
    (env : ScriptEnv) : ScriptOut :=
  if env.comThrew then ⟨none, 4, false⟩
  else
    let sel := selectedUpdates targetDriverIDs available
    if sel.length = 0 then ⟨none, 4, false⟩
    else if env.downloadCode ≠ 2 then ⟨none, 4, false⟩
    else
      ⟨some ⟨env.installCode, psResultText env.installCode, env.installReboot,
             sel.map (fun u => u.title), sel.length⟩,
       env.installCode, env.installReboot⟩

/-- The update collection handed to `$Installer.Install()` by the generated
script (lines 197-200): `none` when the install step is never reached (COM
throw, empty selection, failed download); otherwise exactly the selected
subset of the available updates. -/
def installerCollection (targetDriverIDs : List String) (available : List Driver)
    (env : ScriptEnv) : Option (List Driver) :=
  if env.comThrew then none
  else
    let sel := selectedUpdates targetDriverIDs available
    if sel.length = 0 then none
    else if env.downloadCode ≠ 2 then none
    else some sel

/-- The shape of the object returned by `updateDrivers`: the `data` fields
(`updated`, `failed`, `rebootRequired`) flattened together with the
`success`, `resultCode`, `resultText` and `error` fields. Fields absent on
a given return path are `none`. -/
structure UpdateResult where
  success : Bool
  updated : List String
  failed : List String
  rebootRequired : Bool
  resultCode : Option Int
  resultText : Option String
  error : Option String
deriving DecidableEq

/-- Outcome of the awaited `execPromise` call that runs the install script:
either it resolves with the observable script output, or it rejects
(timeout, spawn failure, ...) with an error message. -/
inductive ExecOutcome where
  | resolved (out : ScriptOut)
  | rejected (message : String)
deriving DecidableEq

/-- Result of one `updateDrivers` run together with its effect trace:
`outcome` is the returned object (or the thrown error on the non-Windows
path); the flags record whether the restore-point step ran, whether the
temp script file was written, whether the install process was spawned, and
whether `fs.unlink` was called on the temp script before returning. -/
structure UpdateTrace where
  outcome : Except String UpdateResult
  restoreCalled : Bool
  scriptWritten : Bool
  installExecCalled : Bool
  unlinkCalled : Bool

/-- JS `s.includes(pat)` on character lists: does `pat` occur as a
contiguous substring of `s`? Structural recursion so it evaluates in the
kernel. -/
def charsStartWith : List Char → List Char → Bool
  | _, [] => true
  | [], _ :: _ => false
  | c :: cs, p :: ps => c == p && charsStartWith cs ps

/-- Search for `pat` at every position of `s`. -/
def charsContainSub : List Char → List Char → Bool
  | [], pat => pat.isEmpty
  | c :: rest, pat => charsStartWith (c :: rest) pat || charsContainSub rest pat

/-- JS `s.includes(pat)`. -/
def strIncludes (s pat : String) : Bool := charsContainSub s.data pat.data

/-- The error-message rewriting in the catch block of `updateDrivers`
(lines 313-322). -/
def mapErrorMessage (m : String) : String :=
  if strIncludes m "timeout" then
    "Driver installation timed out. Large drivers may take longer. Please try again or install drivers individually."
  else if strIncludes m "access" || strIncludes m "permission" then
    "Permission denied. Please run the application as Administrator to install driver updates."
  else if strIncludes m "Windows Update" then
    "Windows Update service is not available. Please enable it in Windows Services."
  else m

/-- `createRestorePoint` (lines 335-362): throws off-Windows; otherwise
runs a `Checkpoint-Computer` PowerShell command (outcome `renv`: resolved
stdout or rejection message) and throws unless stdout contains `SUCCESS`;
every inner failure is rethrown wrapped in `Could not create restore
point: ...`. -/
def createRestorePoint (isWin32 : Bool) (description : String)
    (renv : Except String String) : Except String Unit :=
  if isWin32 = false then
    Except.error "System restore points are only available on Windows"
  else
    match renv with
    | Except.ok stdout =>
        if strIncludes stdout "SUCCESS" then Except.ok ()
        else Except.error "Could not create restore point: Failed to create restore point"
    | Except.error e => Except.error ("Could not create restore point: " ++ e)

/-- The portion of `updateDrivers` after the restore-point step (lines
137-329): write the script, run it, clean up on the resolved path, parse
the printed JSON, and classify. `resultCode` defaults to 4 when no JSON was
found (`installResult?.ResultCode ?? 4`, line 279); `success` holds exactly
for codes 2 and 3 (line 280); on success `updated` receives all requested
ids and `rebootRequired` comes from the parsed flag or the stdout marker
(lines 282-284); otherwise `failed` receives all requested ids (line 286).
The catch path (lines 309-329) marks all requested ids failed and maps the
error message; it does not unlink the temp script. -/
def updateDriversPrepare (driverIds : List String) (exec : ExecOutcome) : UpdateTrace :=
  match exec with
  | ExecOutcome.resolved out =>
      let resultCode : Int := match out.json with
        | some j => j.resultCode
        | none => 4
      if resultCode == 2 || resultCode == 3 then
        ⟨Except.ok ⟨true, driverIds, [],
           ((out.json.map (fun j => j.rebootRequired)).getD false) || out.stdoutRebootTrue,
           some resultCode, some (resultTextOf resultCode), none⟩,
         true, true, true, true⟩
      else
        ⟨Except.ok ⟨false, [], driverIds, false,
           some resultCode, some (resultTextOf resultCode), none⟩,
         true, true, true, true⟩
  | ExecOutcome.rejected message =>
      ⟨Except.ok ⟨false, [], driverIds, false, none, none,
         some (mapErrorMessage message)⟩,
       true, true, true, false⟩

/-- `updateDrivers` (lines 100-330): throws off-Windows (lines 101-103);
returns a validation failure without any external effect on an empty id
list (lines 105-111); otherwise attempts the restore point, absorbing its
failure (lines 129-135), and proceeds to preparation and installation. -/
def updateDriversRun (isWin32 : Bool) (driverIds : List String)
    (renv : Except String String) (exec : ExecOutcome) : UpdateTrace :=
  if isWin32 = false then
    ⟨Except.error "Driver updates are only available on Windows", false, false, false, false⟩
  else if driverIds.length = 0 then
    ⟨Except.ok ⟨false, [], [], false, none, none, some "No driver IDs provided"⟩,
     false, false, false, false⟩
  else
    match createRestorePoint true "Before Driver Updates" renv with
    | Except.ok _ => updateDriversPrepare driverIds exec
    | Except.error _ => updateDriversPrepare driverIds exec

/-- Parse-level model of the detection script stdout (lines 73-79): after
trimming it is empty, the literal `null`, a JSON array, a single JSON
object, or text that fails `JSON.parse`. -/
inductive PSJson where
  | empty
  | nullLit
  | arr (ds : List Driver)
  | obj (d : Driver)
  | malformed
deriving DecidableEq

/-- The normalization in `checkDriverUpdates` (lines 73-82): empty and
`null` outputs are skipped, a parse failure is caught, a parsed array is
taken as is and a single object is wrapped (`Array.isArray(parsed) ?
parsed : [parsed]`); every case yields a plain list. -/
def normalizeDrivers : PSJson → List Driver
  | PSJson.empty => []
  | PSJson.nullLit => []
  | PSJson.arr ds => ds
  | PSJson.obj d => [d]
  | PSJson.malformed => []

/-- Shape of the object returned by `checkDriverUpdates`. -/
structure CheckResult where
  success : Bool
  driversFound : Option Nat
  drivers : List Driver
  error : Option String
deriving DecidableEq

/-- Result of one `checkDriverUpdates` run plus whether the detection
process was spawned. -/
structure CheckTrace where
  outcome : Except String CheckResult
  execCalled : Bool

/-- `checkDriverUpdates` (lines 25-98): throws off-Windows (lines 26-28);
otherwise spawns the detection process; a rejection is caught and returned
as `{success:false, error, drivers:[]}` (lines 91-97); a resolution is
normalized and returned as a success with the drivers found. -/
def checkDriverUpdatesRun (isWin32 : Bool) (exec : Except String PSJson) : CheckTrace :=
  if isWin32 = false then
    ⟨Except.error "Driver updates are only available on Windows", false⟩
  else
    match exec with
    | Except.ok out =>
        let drivers := normalizeDrivers out
        ⟨Except.ok ⟨true, some drivers.length, drivers, none⟩, true⟩
    | Except.error e => ⟨Except.ok ⟨false, none, [], some e⟩, true⟩

/-- The id interpolation of line 149:
`driverIds.map(id => `"${id}"`).join(',')`. -/
def driverIdsFilter (driverIds : List String) : String :=
  String.intercalate "," (driverIds.map (fun id => "\"" ++ id ++ "\""))

/-- The line of the generated script holding the interpolated ids
(line 154): `$TargetDriverIDs = @(<driverIdsFilter>)`. -/
def targetDriverIDsLine (driverIds : List String) : String :=
  "$TargetDriverIDs = @(" ++ driverIdsFilter driverIds ++ ")"

/-- The external command actually executed (line 246): it references the
script only by path. -/
def installCommand (scriptPath : String) : String :=
  "powershell -ExecutionPolicy Bypass -File \"" ++ scriptPath ++ "\""

/-- Node `util.promisify(exec)` semantics for the script invocation: the
promise resolves only when the spawned process exits with code 0; any
non-zero exit code rejects with an error whose message is
`Command failed: <command>`. -/
def nodeExecOutcome (command : String) (out : ScriptOut) : ExecOutcome :=
  if out.exitCode = 0 then ExecOutcome.resolved out
  else ExecOutcome.rejected ("Command failed: " ++ command)

/-- `updateDrivers` composed with the semantics of the script it generates
and with Node exec semantics: the generated script exits with its result
code (`exit $InstallResult.ResultCode`, line 224, and `exit 4` on its
error paths), so the awaited exec resolves only when that exit code is 0
and rejects otherwise. -/
def runWithScript (driverIds : List String) (available : List Driver)
    (env : ScriptEnv) (renv : Except String String) (scriptPath : String) : UpdateTrace :=
  updateDriversRun true driverIds renv
    (nodeExecOutcome (installCommand scriptPath) (runInstallScript driverIds available env))

end DriverUpdater

namespace SystemUpdater

/-- Shape of the object returned by `installWindowsUpdates` in
`electron/systemUpdater.js`. -/
structure SysResult where
  success : Bool
  installed : Option Bool
  requiresRestart : Option Bool
  error : Option String
deriving DecidableEq

/-- `installWindowsUpdates` (lines 186-240 of `electron/systemUpdater.js`):
the exec outcome carries `parseInt(stdout.trim())` (`none` for NaN). Any
resolved run returns `success:true` with `requiresRestart` inferred from
result code 3 (lines 221-233); only a rejected exec yields
`success:false` (lines 234-239). -/
def installWindowsUpdates (exec : Except String (Option Int)) : SysResult :=
  match exec with
  | Except.ok resultCode => ⟨true, some true, some (resultCode == some 3), none⟩
  | Except.error e => ⟨false, none, none, some e⟩

/-- One system update as projected by the detection script
(`Select-Object Title, Description`). -/
structure SysUpdate where
  title : String
  description : String
deriving DecidableEq

/-- Parse-level model of the stdout handed to
`JSON.parse(stdout || '[]')` in `checkWindowsUpdates` (line 97): empty
(so the `'[]'` fallback is parsed), the literal `null`, a JSON array, a
single JSON object, or text on which `JSON.parse` throws (carrying the
thrown message). -/
inductive WinJson where
  | empty
  | nullLit
  | arr (ds : List SysUpdate)
  | obj (d : SysUpdate)
  | malformed (msg : String)
deriving DecidableEq

/-- `const updateArray = Array.isArray(updates) ? updates : [updates]`
(line 98) applied to the parse result. The parsed `null` is not an array,
so it is wrapped into the one-element list `[null]`. (The `malformed`
case never reaches this wrapping: `JSON.parse` throws first and
`checkWindowsUpdates` branches on it before wrapping.) -/
def winUpdateArray : WinJson → List (Option SysUpdate)
  | WinJson.empty => []
  | WinJson.nullLit => [Option.none]
  | WinJson.arr ds => ds.map some
  | WinJson.obj d => [some d]
  | WinJson.malformed _ => []

/-- Shape of the object returned by `checkWindowsUpdates` (the `data`
fields flattened; fields absent on a given path are `none`). -/
structure SysCheckResult where
  success : Bool
  available : Option Bool
  count : Option Nat
  updates : Option (List (Option SysUpdate))
  error : Option String
deriving DecidableEq

/-- `checkWindowsUpdates` (lines 83-119 of `electron/systemUpdater.js`): a
rejected exec or a throwing `JSON.parse` is caught and returned as
`{success:false, error}` (lines 113-118); otherwise the wrapped array is
returned as a success with `available = count > 0` (lines 102-112). -/
def checkWindowsUpdates (exec : Except String WinJson) : SysCheckResult :=
  match exec with
  | Except.error e => ⟨false, none, none, none, some e⟩
  | Except.ok (WinJson.malformed msg) => ⟨false, none, none, none, some msg⟩
  | Except.ok raw =>
      let updateArray := winUpdateArray raw
      ⟨true, some (decide (0 < updateArray.length)), some updateArray.length,
       some updateArray, none⟩

end SystemUpdater

namespace DetectionChain

/-- Outcome of invoking one detection method: a clean return with its
candidate list, or a failure (throw, timeout, or parse failure). -/
inductive MethodOutcome where
  | ok (candidates : List DriverUpdater.Driver)
  | err (reason : String)
deriving DecidableEq

/-- Whether a method outcome is a failure. -/
def MethodOutcome.isErr : MethodOutcome → Bool
  | MethodOutcome.ok _ => false
  | MethodOutcome.err _ => true

/-- Caller-visible outcome of the detection chain. -/
structure DetectResult where
  success : Bool
  candidates : List DriverUpdater.Driver
  error : Option String
deriving DecidableEq

/-- Modelled from the spec: the multi-method detection chain of §4.3
(steps 2-3) — its implementation (PSWindowsUpdate module, then the COM
API, then WMI device enumeration, as documented in
DRIVER_UPDATE_GUIDE.md) is not among the provided source files, which
contain only the single COM-API method. For each method in priority
order: a clean return is accepted immediately as the session outcome; a
failure is recorded and the next method is tried; when every method has
failed, a failure aggregating the last-seen reason is returned. -/
def detectChain (lastFailure : Option String) : List MethodOutcome → DetectResult
  | [] => ⟨false, [], some (lastFailure.getD "All detection methods failed")⟩
  | MethodOutcome.ok cs :: _ => ⟨true, cs, none⟩
  | MethodOutcome.err r :: rest => detectChain (some r) rest

end DetectionChain

namespace DriverUpdater

/-- On Windows with a non-empty id list, `updateDrivers` reaches the
preparation stage whatever the restore-point outcome was: both arms of the
absorbing try/catch continue identically. -/
theorem updateDriversRun_nonempty (driverIds : List String)
    (renv : Except String String) (exec : ExecOutcome)
    (hne : driverIds ≠ []) :
    updateDriversRun true driverIds renv exec = updateDriversPrepare driverIds exec := by
  unfold updateDriversRun
  rw [if_neg (by simp)]
  rw [if_neg (by simpa [List.length_eq_zero] using hne)]
  cases createRestorePoint true "Before Driver Updates" renv <;> rfl

/-- `(s ++ t).data = s.data ++ t.data`. -/
theorem strDataAppend (s t : String) : (s ++ t).data = s.data ++ t.data := by
  cases s
  cases t
  rfl

/-- Under the faithful composition, every install run reports overall
failure with the whole request in `failed`: the generated script exits 4 on
its error paths and exits with the install result code otherwise, the exec
rejects on every non-zero exit (sending `updateDrivers` into its catch
block), and the only resolving exit code, 0, parses to result code 0,
which the classifier maps to failure. -/
theorem runWithScript_fails (driverIds : List String) (available : List Driver)
    (env : ScriptEnv) (renv : Except String String) (scriptPath : String)
    (hne : driverIds ≠ []) :
    ∃ r : UpdateResult,
      (runWithScript driverIds available env renv scriptPath).outcome = Except.ok r
      ∧ r.success = false ∧ r.failed = driverIds ∧ r.updated = [] := by
  rw [runWithScript, updateDriversRun_nonempty _ _ _ hne]
  cases hcom : env.comThrew with
  | true =>
      have hout : runInstallScript driverIds available env = ⟨none, 4, false⟩ := by
        unfold runInstallScript
        simp [hcom]
      rw [hout]
      exact ⟨_, rfl, rfl, rfl, rfl⟩
  | false =>
      by_cases hsel : (selectedUpdates driverIds available).length = 0
      · have hout : runInstallScript driverIds available env = ⟨none, 4, false⟩ := by
          unfold runInstallScript
          simp [hcom, hsel]
        rw [hout]
        exact ⟨_, rfl, rfl, rfl, rfl⟩
      · by_cases hdl : env.downloadCode = 2
        · have hout : runInstallScript driverIds available env
              = ⟨some ⟨env.installCode, psResultText env.installCode, env.installReboot,
                       (selectedUpdates driverIds available).map (fun u => u.title),
                       (selectedUpdates driverIds available).length⟩,
                 env.installCode, env.installReboot⟩ := by
            unfold runInstallScript
            simp [hcom, hdl, hsel]
          rw [hout]
          unfold nodeExecOutcome
          dsimp only
          by_cases hic : env.installCode = 0
          · rw [if_pos hic]
            simp only [hic]
            exact ⟨_, rfl, rfl, rfl, rfl⟩
          · rw [if_neg hic]
            exact ⟨_, rfl, rfl, rfl, rfl⟩
        · have hout : runInstallScript driverIds available env = ⟨none, 4, false⟩ := by
            unfold runInstallScript
            simp [hcom, hsel, hdl]
          rw [hout]
          exact ⟨_, rfl, rfl, rfl, rfl⟩

end DriverUpdater

namespace DetectionChain

/-- If the chain ends in failure then every method in the list failed. -/
theorem detectChain_fail_isErr (ms : List MethodOutcome) :
    ∀ acc : Option String, (detectChain acc ms).success = false →
      ∀ m ∈ ms, m.isErr = true := by
  induction ms with
  | nil => intro acc _ m hm; cases hm
  | cons head rest ih =>
      intro acc h m hm
      cases head with
      | ok cs => simp [detectChain] at h
      | err r =>
          rcases hm with _ | hm
          · rfl
          · exact ih (some r) h m (by assumption)

end DetectionChain

open DriverUpdater DetectionChain

/-- Claim C3 (confirmed): a call of `updateDrivers` with an empty selection
set returns the validation failure `{success:false, error:'No driver IDs
provided'}` with empty result lists, and neither the restore-point process
nor the install process is started, no script file is written. -/
theorem claim_C3 (renv : Except String String) (exec : ExecOutcome) :
    updateDriversRun true [] renv exec =
      ⟨Except.ok ⟨false, [], [], false, none, none, some "No driver IDs provided"⟩,
       false, false, false, false⟩ := rfl

/-- Claim C5 (code bug): on the rejected-exec exit path (for example the
30-minute timeout), `updateDrivers` returns from its catch block with the
temp PowerShell script still on disk: the script was written but
`fs.unlink` was never called, contradicting the guaranteed-release claim. -/
theorem claim_C5 :
    (updateDriversRun true ["driver-1"] (Except.ok "SUCCESS")
        (ExecOutcome.rejected "Command failed: timeout")).scriptWritten = true
    ∧ (updateDriversRun true ["driver-1"] (Except.ok "SUCCESS")
        (ExecOutcome.rejected "Command failed: timeout")).unlinkCalled = false
    ∧ (updateDriversRun true ["driver-1"] (Except.ok "SUCCESS")
        (ExecOutcome.rejected "Command failed: timeout")).outcome
      = Except.ok ⟨false, [], ["driver-1"], false, none, none,
          some "Driver installation timed out. Large drivers may take longer. Please try again or install drivers individually."⟩ :=
  ⟨rfl, rfl, rfl⟩

/-- Claim C7 counterexample: the cited system-lane parser
(`checkWindowsUpdates`) does not map the literal absence marker to count
0: `JSON.parse('null')` yields `null`, which is not an array and is
wrapped to `[null]`, so the result is a success with count 1 (and even
`available: true`), violating the count-0 clause of the claim. -/
theorem claim_C7_counterexample :
    SystemUpdater.checkWindowsUpdates (Except.ok SystemUpdater.WinJson.nullLit)
      = ⟨true, some true, some 1, some [Option.none], none⟩ := rfl

/-- Claim C7 (amended): the driver-lane parser (`checkDriverUpdates`)
normalizes an empty output, the literal absence marker, a single JSON
object and a JSON collection into a list of 0, 1 or N elements (totally,
never throwing on the single-object shape), and an empty or
absence-marker output yields a success result with count 0, while every
failure-path result has `success:false`. The system-lane parser
(`checkWindowsUpdates`) normalizes empty, single-object and collection
outputs likewise (empty falls back to `'[]'`, count 0), but wraps the
parsed absence marker into the one-element list `[null]`, yielding a
success with count 1, not 0. -/
theorem claim_C7 :
    (∀ d : Driver, normalizeDrivers (PSJson.obj d) = [d])
    ∧ (∀ ds : List Driver, normalizeDrivers (PSJson.arr ds) = ds)
    ∧ normalizeDrivers PSJson.empty = []
    ∧ normalizeDrivers PSJson.nullLit = []
    ∧ (checkDriverUpdatesRun true (Except.ok PSJson.empty)).outcome
        = Except.ok ⟨true, some 0, [], none⟩
    ∧ (checkDriverUpdatesRun true (Except.ok PSJson.nullLit)).outcome
        = Except.ok ⟨true, some 0, [], none⟩
    ∧ (∀ e : String, (checkDriverUpdatesRun true (Except.error e)).outcome
        = Except.ok ⟨false, none, [], some e⟩)
    ∧ SystemUpdater.checkWindowsUpdates (Except.ok SystemUpdater.WinJson.empty)
        = ⟨true, some false, some 0, some [], none⟩
    ∧ (∀ d : SystemUpdater.SysUpdate,
        SystemUpdater.checkWindowsUpdates (Except.ok (SystemUpdater.WinJson.obj d))
          = ⟨true, some true, some 1, some [some d], none⟩)
    ∧ (∀ ds : List SystemUpdater.SysUpdate,
        SystemUpdater.winUpdateArray (SystemUpdater.WinJson.arr ds) = ds.map some)
    ∧ SystemUpdater.checkWindowsUpdates (Except.ok SystemUpdater.WinJson.nullLit)
        = ⟨true, some true, some 1, some [Option.none], none⟩ :=
  ⟨fun _ => rfl, fun _ => rfl, rfl, rfl, rfl, rfl, fun _ => rfl, rfl, fun _ => rfl,
   fun _ => rfl, rfl⟩

/-- Claim C8 counterexample: on a non-Windows platform `checkDriverUpdates`
does not return a `{success:false, ...}` object — it throws: the outcome is
`Except.error "Driver updates are only available on Windows"`, and no
external process is spawned. -/
theorem claim_C8_counterexample :
    (checkDriverUpdatesRun false (Except.ok PSJson.empty)).outcome
      = Except.error "Driver updates are only available on Windows"
    ∧ (checkDriverUpdatesRun false (Except.ok PSJson.empty)).execCalled = false :=
  ⟨rfl, rfl⟩

/-- Claim C8 (corrected): on a platform other than Windows, driver-update
detection fails with the thrown error `Driver updates are only available on
Windows` (a rejected promise, not a returned failure object) and spawns
zero external processes. -/
theorem claim_C8 (exec : Except String PSJson) :
    checkDriverUpdatesRun false exec
      = ⟨Except.error "Driver updates are only available on Windows", false⟩ := rfl

/-- Claim C2 counterexample: the system-update installer
(`installWindowsUpdates`) classifies platform result code 4 (Failed) as
overall success: any resolved run yields `success:true`, with restart
inferred from code 3 rather than a platform-reported flag. -/
theorem claim_C2_counterexample :
    SystemUpdater.installWindowsUpdates (Except.ok (some 4))
      = ⟨true, some true, some false, none⟩ := rfl

/-- Claim C9 counterexample: candidate ids are interpolated into the
generated script with no allowed-charset validation, so an id value can
alter the structure of the generated command text: the single malicious id
`a","b` produces exactly the same `$TargetDriverIDs` line as the two-id
request `a`, `b`. -/
theorem claim_C9_counterexample :
    targetDriverIDsLine ["a\",\"b"] = targetDriverIDsLine ["a", "b"]
    ∧ (["a\",\"b"] == ["a", "b"]) = false :=
  ⟨rfl, rfl⟩

/-- Claim C4 (confirmed; chain modelled from the spec): when the first
detection method fails, the chain records the failure and invokes the rest
of the chain with that recorded reason before declaring failure, and a
`success:false` outcome implies every method in the chain failed. -/
theorem claim_C4 (r : String) (ms : List MethodOutcome)
    (h : (detectChain none (MethodOutcome.err r :: ms)).success = false) :
    detectChain none (MethodOutcome.err r :: ms) = detectChain (some r) ms
    ∧ ∀ m ∈ (MethodOutcome.err r :: ms), m.isErr = true :=
  ⟨rfl, detectChain_fail_isErr _ none h⟩

/-- Claim C4 witness: a concrete two-method chain in which both methods
fail. -/
theorem claim_C4_witness :
    detectChain none [MethodOutcome.err "m1", MethodOutcome.err "m2"]
      = detectChain (some "m1") [MethodOutcome.err "m2"]
    ∧ ∀ m ∈ [MethodOutcome.err "m1", MethodOutcome.err "m2"], m.isErr = true :=
  claim_C4 "m1" [MethodOutcome.err "m2"] rfl

/-- Unmapped result codes label as `Unknown`. -/
theorem resultTextOf_unmapped (c : Int) (h : c < 0 ∨ 5 < c) :
    resultTextOf c = "Unknown" := by
  have h0 : ¬ c = 0 := by omega
  have h1 : ¬ c = 1 := by omega
  have h2 : ¬ c = 2 := by omega
  have h3 : ¬ c = 3 := by omega
  have h4 : ¬ c = 4 := by omega
  have h5 : ¬ c = 5 := by omega
  simp [resultTextOf, RESULT_CODES, h0, h1, h2, h3, h4, h5]

/-- Claim C1 (confirmed): the prepared install target is exactly the
requested-id subset of the currently available updates — the collection
handed to the installer is never anything other than that subset, and it
is never enlarged to all available updates; the matched (found) ids
proceed to the download/install step whenever it is reached; and on every
faithfully composed run the whole request — so in particular every
requested id not found among the available updates — appears in the
`failed` list of the result, never silently dropped. -/
theorem claim_C1 (driverIds : List String) (available : List Driver)
    (env : ScriptEnv) (renv : Except String String) (scriptPath : String)
    (hne : driverIds ≠ []) :
    (∀ u : Driver, u ∈ selectedUpdates driverIds available ↔
        u ∈ available ∧ driverIds.contains u.updateID = true)
    ∧ (∀ installed : List Driver,
        installerCollection driverIds available env = some installed →
        installed = selectedUpdates driverIds available)
    ∧ (selectedUpdates driverIds available ≠ [] → env.comThrew = false →
        env.downloadCode = 2 →
        installerCollection driverIds available env
          = some (selectedUpdates driverIds available))
    ∧ (∃ r : UpdateResult,
        (runWithScript driverIds available env renv scriptPath).outcome = Except.ok r
        ∧ r.success = false ∧ r.failed = driverIds ∧ r.updated = []) := by
  refine ⟨?_, ?_, ?_, runWithScript_fails driverIds available env renv scriptPath hne⟩
  · intro u
    simp [selectedUpdates, List.mem_filter]
  · intro installed h
    unfold installerCollection at h
    by_cases hcom : env.comThrew = true
    · rw [if_pos hcom] at h
      exact absurd h (by simp)
    · rw [if_neg hcom] at h
      dsimp only at h
      by_cases hlen : (selectedUpdates driverIds available).length = 0
      · rw [if_pos hlen] at h
        exact absurd h (by simp)
      · rw [if_neg hlen] at h
        by_cases hdl2 : env.downloadCode ≠ 2
        · rw [if_pos hdl2] at h
          exact absurd h (by simp)
        · rw [if_neg hdl2] at h
          exact (Option.some.inj h).symm
  · intro hsel hcom hdl
    unfold installerCollection
    simp [hcom, hdl, List.length_eq_zero, hsel]

/-- Claim C1 witness: available `{A, B}`, requested `{B, X}`, clean
download, install result code 2: the installer receives exactly `{B}`,
and the composed run reports the whole request `{B, X}` failed (the
script exits 2, so the exec rejects). -/
theorem claim_C1_witness :
    installerCollection ["B", "X"] [⟨"A", "Driver A"⟩, ⟨"B", "Driver B"⟩]
        ⟨false, 2, 2, false⟩ = some [⟨"B", "Driver B"⟩]
    ∧ ∃ r : UpdateResult,
        (runWithScript ["B", "X"] [⟨"A", "Driver A"⟩, ⟨"B", "Driver B"⟩]
            ⟨false, 2, 2, false⟩ (Except.ok "SUCCESS")
            "C:\\Temp\\driver-update-1.ps1").outcome = Except.ok r
        ∧ r.success = false ∧ r.failed = ["B", "X"] ∧ r.updated = [] := by
  have h := claim_C1 ["B", "X"] [⟨"A", "Driver A"⟩, ⟨"B", "Driver B"⟩]
      ⟨false, 2, 2, false⟩ (Except.ok "SUCCESS") "C:\\Temp\\driver-update-1.ps1"
      (by decide)
  exact ⟨h.2.2.1 (by decide) rfl rfl, h.2.2.2⟩

/-- Claim C2 (amended): the classification code of `updateDrivers` is
applied only to a resolved install exec: there, a parsed result code 2 or
3 is classified as overall success with `rebootRequired` from the
platform-reported flag (or its stdout echo), and every other parsed code
— 4 and every code outside 0..5 included — as well as a missing code is
classified as overall failure with every requested id in `failed` and
result text `Unknown` for unmapped codes; unmapped codes are never
classified as success. In the composed program, however, the generated
script exits with its result code and the exec rejects on every non-zero
exit, so a platform-reported code 2 or 3 never reaches this
classification: every faithfully composed run — codes 2 and 3 included —
is reported as overall failure with every requested id in `failed`. (The
system-update installer deviates in the opposite direction: see the
counterexample.) -/
theorem claim_C2 (driverIds : List String) (available : List Driver)
    (env : ScriptEnv) (renv : Except String String) (scriptPath : String)
    (out : ScriptOut) (hne : driverIds ≠ []) :
    (∀ j : ScriptJson, out.json = some j →
      ∃ r : UpdateResult,
        (updateDriversRun true driverIds renv (ExecOutcome.resolved out)).outcome
          = Except.ok r
        ∧ (r.success = true ↔ (j.resultCode = 2 ∨ j.resultCode = 3))
        ∧ (r.success = true →
            r.rebootRequired = (j.rebootRequired || out.stdoutRebootTrue))
        ∧ (r.success = false → r.failed = driverIds ∧ r.updated = [])
        ∧ r.resultCode = some j.resultCode
        ∧ r.resultText = some (resultTextOf j.resultCode)
        ∧ ((j.resultCode < 0 ∨ 5 < j.resultCode) →
            r.resultText = some "Unknown" ∧ r.success = false))
    ∧ (out.json = none →
      ∃ r : UpdateResult,
        (updateDriversRun true driverIds renv (ExecOutcome.resolved out)).outcome
          = Except.ok r
        ∧ r.success = false ∧ r.failed = driverIds ∧ r.updated = []
        ∧ r.resultCode = some 4 ∧ r.resultText = some "Failed")
    ∧ (∃ r : UpdateResult,
        (runWithScript driverIds available env renv scriptPath).outcome = Except.ok r
        ∧ r.success = false ∧ r.failed = driverIds ∧ r.updated = []) := by
  refine ⟨?_, ?_, runWithScript_fails driverIds available env renv scriptPath hne⟩
  · intro j hj
    rw [updateDriversRun_nonempty _ _ _ hne]
    unfold updateDriversPrepare
    dsimp only
    simp only [hj, Option.map_some, Option.getD_some]
    cases hc : (j.resultCode == 2 || j.resultCode == 3) with
    | true =>
        refine ⟨_, rfl, ?_, fun _ => rfl, ?_, rfl, rfl, ?_⟩
        · simpa using hc
        · intro hfalse
          cases hfalse
        · intro hout5
          have hcodes : j.resultCode = 2 ∨ j.resultCode = 3 := by simpa using hc
          rcases hout5 with h | h <;> rcases hcodes with h2 | h2 <;> omega
    | false =>
        refine ⟨_, rfl, ?_, ?_, fun _ => ⟨rfl, rfl⟩, rfl, rfl, ?_⟩
        · constructor
          · intro hfalse
            cases hfalse
          · intro hcodes
            have := (by simpa using hc : ¬(j.resultCode = 2 ∨ j.resultCode = 3))
            exact absurd hcodes this
        · intro htrue
          cases htrue
        · intro hout5
          exact ⟨by simp [resultTextOf_unmapped _ hout5], rfl⟩
  · intro hj
    rw [updateDriversRun_nonempty _ _ _ hne]
    unfold updateDriversPrepare
    dsimp only
    simp only [hj]
    exact ⟨_, rfl, rfl, rfl, rfl, rfl, rfl⟩

/-- Claim C2 witness: a resolved exec whose stdout parses to result code 3
with the platform reboot flag set is classified as success with
`rebootRequired = true`; yet the faithfully composed run at the very same
script environment (install code 3) is reported as overall failure. -/
theorem claim_C2_witness :
    (∃ r : UpdateResult,
      (updateDriversRun true ["B"] (Except.ok "SUCCESS")
          (ExecOutcome.resolved
            ⟨some ⟨3, "Succeeded with Errors", true, ["Driver B"], 1⟩, 3, true⟩)).outcome
        = Except.ok r
      ∧ r.success = true ∧ r.rebootRequired = true)
    ∧ (∃ r : UpdateResult,
      (runWithScript ["B"] [⟨"B", "Driver B"⟩] ⟨false, 2, 3, true⟩
          (Except.ok "SUCCESS") "C:\\Temp\\driver-update-1.ps1").outcome
        = Except.ok r
      ∧ r.success = false ∧ r.failed = ["B"]) := by
  have h := claim_C2 ["B"] [⟨"B", "Driver B"⟩] ⟨false, 2, 3, true⟩
      (Except.ok "SUCCESS") "C:\\Temp\\driver-update-1.ps1"
      ⟨some ⟨3, "Succeeded with Errors", true, ["Driver B"], 1⟩, 3, true⟩ (by decide)
  obtain ⟨r, hr, hiff, hreb, -⟩ := h.1 ⟨3, "Succeeded with Errors", true, ["Driver B"], 1⟩ rfl
  have hsucc : r.success = true := hiff.mpr (Or.inr rfl)
  obtain ⟨r2, hr2, hs2, hf2, -⟩ := h.2.2
  exact ⟨⟨r, hr, hsucc, hreb hsucc⟩, ⟨r2, hr2, hs2, hf2⟩⟩

/-- Claim C6 (confirmed): the restore-point outcome never influences the
rest of the install run: for any two restore-point environments the whole
result (returned object and effect trace) is identical, and the Preparing
stage (script written, install process spawned) executes regardless. -/
theorem claim_C6 (driverIds : List String) (renv renv2 : Except String String)
    (exec : ExecOutcome) (hne : driverIds ≠ []) :
    updateDriversRun true driverIds renv exec = updateDriversRun true driverIds renv2 exec
    ∧ (updateDriversRun true driverIds renv exec).scriptWritten = true
    ∧ (updateDriversRun true driverIds renv exec).installExecCalled = true := by
  rw [updateDriversRun_nonempty _ _ _ hne, updateDriversRun_nonempty _ _ _ hne]
  refine ⟨rfl, ?_, ?_⟩ <;>
    · cases exec with
      | resolved out =>
          unfold updateDriversPrepare
          dsimp only
          split <;> rfl
      | rejected m => rfl

/-- Claim C6 witness: a restore point that succeeds and one that fails
(permission denied) give the identical install run. -/
theorem claim_C6_witness :
    updateDriversRun true ["driver-1"] (Except.ok "SUCCESS")
        (ExecOutcome.rejected "boom")
      = updateDriversRun true ["driver-1"] (Except.error "Access denied")
        (ExecOutcome.rejected "boom")
    ∧ (updateDriversRun true ["driver-1"] (Except.ok "SUCCESS")
        (ExecOutcome.rejected "boom")).scriptWritten = true
    ∧ (updateDriversRun true ["driver-1"] (Except.ok "SUCCESS")
        (ExecOutcome.rejected "boom")).installExecCalled = true :=
  claim_C6 ["driver-1"] (Except.ok "SUCCESS") (Except.error "Access denied")
    (ExecOutcome.rejected "boom") (by decide)

/-- Claim C9 (amended): candidate ids are concatenated verbatim — each
wrapped in double quotes and comma-joined, with no allowed-charset
validation — into the `$TargetDriverIDs` line of the generated script, so
an id containing a double quote alters the structure of the generated
command (as the counterexample shows); only the outer command line avoids
interpolating ids, referencing the script by path. -/
theorem claim_C9 (a b : String) :
    (targetDriverIDsLine [a, b]).data
      = "$TargetDriverIDs = @(\"".data ++ a.data
        ++ ("\",\"".data ++ b.data ++ "\")".data) := by
  have h1 : driverIdsFilter [a, b]
      = (("\"" ++ a ++ "\"") ++ ",") ++ ("\"" ++ b ++ "\"") := rfl
  rw [targetDriverIDsLine, h1]
  simp [strDataAppend, List.append_assoc]

/-- Claim C10 (confirmed): for every non-empty request, the result of
`updateDrivers` is all-or-nothing: on success `updated` is the entire
requested id list and `failed` is empty; on failure `failed` is the entire
requested id list and `updated` is empty; no proper subset and no outside
ids ever appear. -/
theorem claim_C10 (driverIds : List String) (renv : Except String String)
    (exec : ExecOutcome) (hne : driverIds ≠ []) :
    ∃ r : UpdateResult,
      (updateDriversRun true driverIds renv exec).outcome = Except.ok r
      ∧ (r.success = true → r.updated = driverIds ∧ r.failed = [])
      ∧ (r.success = false → r.failed = driverIds ∧ r.updated = []) := by
  rw [updateDriversRun_nonempty _ _ _ hne]
  cases exec with
  | resolved out =>
      unfold updateDriversPrepare
      dsimp only
      split
      · refine ⟨_, rfl, fun _ => ⟨rfl, rfl⟩, fun h => ?_⟩
        exact absurd h (by simp)
      · refine ⟨_, rfl, fun h => ?_, fun _ => ⟨rfl, rfl⟩⟩
        exact absurd h (by simp)
  | rejected m =>
      refine ⟨_, rfl, fun h => ?_, fun _ => ⟨rfl, rfl⟩⟩
      exact absurd h (by simp)

/-- Claim C10 witness: a concrete rejected run places the whole request in
`failed`. -/
theorem claim_C10_witness :
    ∃ r : UpdateResult,
      (updateDriversRun true ["driver-1"] (Except.ok "SUCCESS")
          (ExecOutcome.rejected "boom")).outcome = Except.ok r
      ∧ (r.success = true → r.updated = ["driver-1"] ∧ r.failed = [])
      ∧ (r.success = false → r.failed = ["driver-1"] ∧ r.updated = []) :=
  claim_C10 ["driver-1"] (Except.ok "SUCCESS") (ExecOutcome.rejected "boom")
    (by decide)
